import Mathlib

/-!
Shallow embedding of the token/authorization core of the `lambdas` repository:
`src/authorizer/app.py` and `src/token_generator/app.py`, together with the
Token Codec they delegate to (the PyJWT `jwt.encode`/`jwt.decode` calls, which
are an external library and are therefore modelled from the specification's
description of the codec).

Time is modelled as `Nat` seconds since the epoch (`datetime.utcnow()`
truncated to whole seconds, which is what the JWT `iat`/`exp` integer
timestamps hold); `timedelta(hours=1)` is 3600 seconds and
`timedelta(days=7)` is 604800 seconds.
-/

/-- The claim set carried by a token. Mirrors the payload dictionaries built
in `generate_tokens` and `refresh_access_token`: `sub`, `iat`, `exp`, `iss`,
`type`. All five claims are present in every token this system issues. -/
structure Claims where
  sub : String
  iat : Nat
  exp : Nat
  iss : String
  type : String
deriving DecidableEq, Repr

namespace Jwt

/-- Modelled from the spec: the symmetric signature (HMAC-SHA256 equivalent)
that `Encode` computes over the serialized claims with the shared secret.
PyJWT's HMAC is not in the repository, so it is idealized as a collision-free
pairing of the key with the signed claims. -/
structure Sig where
  key : String
  signedClaims : Claims
deriving DecidableEq, Repr

/-- Modelled from the spec: the compact token string, either a structurally
well-formed signed encoding of exactly one claim set or an unparseable
string (the spec's `Malformed` case: wrong segment count, invalid encoding,
missing required claim). -/
inductive TokenStr where
  | signed (claims : Claims) (sig : Sig)
  | garbage (raw : String)
deriving DecidableEq, Repr

/-- Python exception values relevant to the two handlers: the PyJWT
exception hierarchy (`ExpiredSignatureError`, `InvalidSignatureError` and
`DecodeError` are subclasses of `InvalidTokenError`), `ValueError`,
the `TypeError` raised when a `None` key reaches the HMAC, and a generic
`Exception` with a message. -/
inductive PyErr where
  | expiredSignature
  | invalidSignature
  | decodeError
  | valueError (msg : String)
  | keyTypeError
  | exc (msg : String)
deriving DecidableEq, Repr

/-- Modelled from the spec: `Encode(claims, secret)` signs the serialized
claims with the secret and returns the compact signed token string. -/
def sign (secret : String) (c : Claims) : Sig := ⟨secret, c⟩

/-- Modelled from the spec: `jwt.encode(payload, secret, algorithm='HS256')`. -/
def jwt_encode (c : Claims) (secret : String) : TokenStr :=
  .signed c (sign secret c)

/-- Modelled from the spec: `jwt.decode(token, secret, algorithms=['HS256'])`
at current time `now`. Checks, in order: structural parse (`Malformed` →
`DecodeError`), signature (`SignatureInvalid` → `InvalidSignatureError`),
then expiry (`TokenExpired` → `ExpiredSignatureError`, raised when
`exp <= now`). On success returns the decoded claim set with no validation
of `token_type`. -/
def jwt_decodeRaw (secret : String) (now : Nat) (tok : TokenStr) : Except PyErr Claims :=
  match tok with
  | .garbage _ => .error .decodeError
  | .signed c s =>
    if s ≠ sign secret c then .error .invalidSignature
    else if c.exp ≤ now then .error .expiredSignature
    else .ok c

/-- `jwt.decode` as called with a secret obtained from `os.environ.get`,
which may be `None`: a `None` key raises a `TypeError` before any token
processing. -/
def jwt_decodeOpt (secret : Option String) (now : Nat) (tok : TokenStr) : Except PyErr Claims :=
  match secret with
  | none => .error .keyTypeError
  | some s => jwt_decodeRaw s now tok

end Jwt

open Jwt

/-- Python's `s.split(' ')` splits on every single occurrence of the
separator character, keeping empty segments. -/
def splitCharAux (sep : Char) : List Char → List Char → List (List Char)
  | [], acc => [acc.reverse]
  | c :: rest, acc =>
    if c = sep then acc.reverse :: splitCharAux sep rest []
    else splitCharAux sep rest (c :: acc)

/-- Python `s.split(' ')`. -/
def pySplit (s : String) : List String :=
  (splitCharAux ' ' s.toList []).map List.asString

/-- Python `s.startswith(pre)`. -/
def pyStartsWith (s pre : String) : Bool :=
  pre.toList.isPrefixOf s.toList

namespace Authorizer

/-- The IAM policy statement produced by `generate_policy`. -/
structure Statement where
  action : String
  effect : String
  resource : String
deriving DecidableEq, Repr

/-- The `policyDocument` part of the authorizer's return value. -/
structure PolicyDocument where
  version : String
  statement : List Statement
deriving DecidableEq, Repr

/-- The full return value of `generate_policy`. -/
structure Policy where
  principalId : String
  policyDocument : PolicyDocument
deriving DecidableEq, Repr

/-- `generate_policy(principal_id, effect, resource)` from
`src/authorizer/app.py`. -/
def generate_policy (principal_id effect resource : String) : Policy :=
  { principalId := principal_id,
    policyDocument :=
      { version := "2012-10-17",
        statement := [{ action := "execute-api:Invoke", effect := effect, resource := resource }] } }

/-- The authorizer's input event. `authorizationToken` is read with
`event.get('authorizationToken', '')` (absence tolerated), `methodArn` with
`event['methodArn']` (absence raises `KeyError`). -/
structure AuthorizerEvent where
  authorizationToken : Option String
  methodArn : Option String

/-- The authorizer's environment: `AUTH_TOKEN_SECRET` read with
`os.environ.get` (may be `None`), `SSM_TOKEN_TIME_PATH` read with
`os.environ[...]` (`KeyError` if absent), and the result of
`get_parameter` per parameter path (the SSM lookup, which returns the
parameter's string value or raises). -/
structure AuthConfig where
  authTokenSecret : Option String
  ssmTokenTimePath : Option String
  ssmLookup : String → Except String String

/-- The body of the `try` block of the authorizer's `lambda_handler`:
header prefix check, `split(' ')[1]` token extraction, secret and SSM
parameter retrieval, `jwt.decode`, `type == 'access'` check, and
`generate_policy(sub, 'Allow', event['methodArn'])` on success.
`strToTok` is the ambient parse of token strings into their JWT structure.
The index access `split(' ')[1]` cannot fail here because the header was
just checked to start with `"Bearer "`, so `getD 1 ""` is exact. -/
def authorizer_try (strToTok : String → TokenStr) (cfg : AuthConfig) (now : Nat)
    (ev : AuthorizerEvent) : Except PyErr Policy :=
  if ¬ pyStartsWith (ev.authorizationToken.getD "") "Bearer " then
    .error (.exc "Format is Authorization: Bearer [token]")
  else
    match cfg.ssmTokenTimePath with
    | none => .error (.exc "KeyError: SSM_TOKEN_TIME_PATH")
    | some path =>
      match cfg.ssmLookup path with
      | .error m => .error (.exc m)
      | .ok _token_time =>
        match jwt_decodeOpt cfg.authTokenSecret now
            (strToTok ((pySplit (ev.authorizationToken.getD "")).getD 1 "")) with
        | .error e => .error e
        | .ok decoded =>
          if decoded.type ≠ "access" then
            .error (.exc "Token tipo inválido - Se requiere access_token")
          else
            match ev.methodArn with
            | none => .error (.exc "KeyError: methodArn")
            | some arn => .ok (generate_policy decoded.sub "Allow" arn)

/-- `lambda_handler` of `src/authorizer/app.py`: the `try` body, with the
`except` branch returning `generate_policy('user', 'Deny', event['methodArn'])`.
The `event['methodArn']` access in the `except` branch itself raises
`KeyError` when the event has no `methodArn`; that exception escapes the
handler, which the `Except.error` result records. -/
def lambda_handler (strToTok : String → TokenStr) (cfg : AuthConfig) (now : Nat)
    (ev : AuthorizerEvent) : Except PyErr Policy :=
  match authorizer_try strToTok cfg now ev with
  | .ok p => .ok p
  | .error _ =>
    match ev.methodArn with
    | none => .error (.exc "KeyError: methodArn")
    | some arn => .ok (generate_policy "user" "Deny" arn)

end Authorizer

namespace TokenGenerator

/-- The `{'access_token': ..., 'refresh_token': ...}` dictionary returned by
`generate_tokens`. -/
structure TokenPair where
  access_token : TokenStr
  refresh_token : TokenStr
deriving DecidableEq, Repr

/-- `generate_tokens(user_id)` from `src/token_generator/app.py`: builds the
access payload (`exp = now + 1 hour`) and refresh payload
(`exp = now + 7 days`), both with `iat = now`, `iss = 'lambda-api'`, and
signs both with the `AUTH_TOKEN_SECRET` environment value. A `None` secret
reaching `jwt.encode` raises a `TypeError`. -/
def generate_tokens (secret : Option String) (now : Nat) (user_id : String) :
    Except PyErr TokenPair :=
  let access_payload : Claims :=
    { sub := user_id, iat := now, exp := now + 3600, iss := "lambda-api", type := "access" }
  let refresh_payload : Claims :=
    { sub := user_id, iat := now, exp := now + 604800, iss := "lambda-api", type := "refresh" }
  match secret with
  | none => .error .keyTypeError
  | some sec =>
    .ok { access_token := jwt_encode access_payload sec,
          refresh_token := jwt_encode refresh_payload sec }

/-- `refresh_access_token(refresh_token)` from `src/token_generator/app.py`:
decodes the presented token; `ExpiredSignatureError` is re-raised as
`ValueError('Refresh token expirado')` and any other `InvalidTokenError`
(malformed or bad signature) as `ValueError('Refresh token inválido')`.
A decoded `type` other than `'refresh'` raises
`ValueError('Token tipo inválido')`, which the `except jwt...` clauses do
not catch. On success a single new access token is signed with
`iat = now`, `exp = now + 1 hour`, same `sub`. A `None` secret raises a
`TypeError`, caught by none of the clauses. -/
def refresh_access_token (secret : Option String) (now : Nat) (tok : TokenStr) :
    Except PyErr TokenStr :=
  match secret with
  | none => .error .keyTypeError
  | some sec =>
    match jwt_decodeRaw sec now tok with
    | .error .expiredSignature => .error (.valueError "Refresh token expirado")
    | .error .decodeError => .error (.valueError "Refresh token inválido")
    | .error .invalidSignature => .error (.valueError "Refresh token inválido")
    | .error e => .error e
    | .ok decoded =>
      if decoded.type ≠ "refresh" then .error (.valueError "Token tipo inválido")
      else .ok (jwt_encode
        { sub := decoded.sub, iat := now, exp := now + 3600,
          iss := "lambda-api", type := "access" } sec)

/-- The JSON request body as the handler reads it with `body.get(...)`. -/
structure ReqBody where
  grant_type : Option String
  user_id : Option String
  refresh_token : Option String

/-- Result of `json.loads(event.get('body', '{}'))`: a parsed dictionary, or
a parse failure (`JSONDecodeError`, or a `TypeError` on a non-string body),
which the handler's outer `except` turns into a 500. An event without a
`body` key parses as the empty dictionary. -/
inductive BodyParse where
  | parsed (b : ReqBody)
  | malformedJson

/-- The token generator's input event, reduced to the only field the handler
reads. -/
structure TGEvent where
  body : BodyParse

/-- The token generator's environment: `AUTH_TOKEN_SECRET` and the
`get_parameter` SSM lookup results per path. -/
structure TGEnv where
  authTokenSecret : Option String
  ssmLookup : String → Except String String

/-- The JSON body of the handler's HTTP response. -/
inductive RespBody where
  | errMsg (msg : String)
  | issuedTokens (access_token refresh_token : TokenStr) (expires_in : Nat) (token_type : String)
  | refreshedToken (access_token : TokenStr) (expires_in : Nat) (token_type : String)
deriving DecidableEq, Repr

/-- The handler's HTTP response. The 200 responses additionally carry
`Content-Type` and CORS headers, which no claim concerns and which are
omitted here. -/
structure TGResponse where
  statusCode : Nat
  body : RespBody
deriving DecidableEq, Repr

/-- `str(e)` for the exception values that can reach the handler's
`except` clauses: `ValueError` messages are the strings the code raises;
PyJWT and `TypeError` messages are abbreviated stand-ins. -/
def pyErrStr : PyErr → String
  | .valueError m => m
  | .exc m => m
  | .expiredSignature => "Signature has expired"
  | .invalidSignature => "Signature verification failed"
  | .decodeError => "Not enough segments"
  | .keyTypeError => "Expected a string value"

/-- The body of the outer `try` block of the token generator's
`lambda_handler`: SSM parameter fetch (its failure raises), body parse,
then dispatch on `grant_type`. Python's `if not user_id` (and
`if not refresh_token`) treats both a missing key and an empty string as
absent, returning 400. The inner `try`/`except ValueError` around
`refresh_access_token` maps its `ValueError`s to 401; any other exception
propagates to the outer handler. -/
def tg_try (env : TGEnv) (strToTok : String → TokenStr) (now : Nat)
    (event : TGEvent) : Except PyErr TGResponse :=
  match env.ssmLookup "/auth/token/time" with
  | .error m => .error (.exc m)
  | .ok _token_time =>
    match event.body with
    | .malformedJson => .error (.exc "json decode error")
    | .parsed body =>
      if body.grant_type = some "password" then
        match body.user_id with
        | none => .ok { statusCode := 400, body := .errMsg "user_id es requerido" }
        | some u =>
          if u = "" then .ok { statusCode := 400, body := .errMsg "user_id es requerido" }
          else
            match generate_tokens env.authTokenSecret now u with
            | .error e => .error e
            | .ok toks =>
              .ok { statusCode := 200,
                    body := .issuedTokens toks.access_token toks.refresh_token 3600 "Bearer" }
      else if body.grant_type = some "refresh_token" then
        match body.refresh_token with
        | none => .ok { statusCode := 400, body := .errMsg "refresh_token es requerido" }
        | some rt =>
          if rt = "" then .ok { statusCode := 400, body := .errMsg "refresh_token es requerido" }
          else
            match refresh_access_token env.authTokenSecret now (strToTok rt) with
            | .ok newTok =>
              .ok { statusCode := 200, body := .refreshedToken newTok 3600 "Bearer" }
            | .error (.valueError m) => .ok { statusCode := 401, body := .errMsg m }
            | .error e => .error e
      else .ok { statusCode := 400, body := .errMsg "grant_type inválido" }

/-- `lambda_handler` of `src/token_generator/app.py`: the `try` body with
the outer `except Exception` clause returning
`{'statusCode': 500, 'body': json.dumps({'error': str(e)})}`. -/
def lambda_handler (env : TGEnv) (strToTok : String → TokenStr) (now : Nat)
    (event : TGEvent) : TGResponse :=
  match tg_try env strToTok now event with
  | .ok r => r
  | .error e => { statusCode := 500, body := .errMsg (pyErrStr e) }

end TokenGenerator

open Jwt Authorizer TokenGenerator

/-! ## Shared lemmas about the codec -/

/-- Decoding a freshly encoded, unexpired token succeeds with the original
claim set. -/
lemma decode_encode_of_lt (secret : String) (now : Nat) (c : Claims)
    (h : now < c.exp) :
    jwt_decodeRaw secret now (jwt_encode c secret) = .ok c := by
  simp [jwt_decodeRaw, jwt_encode, Nat.not_le.mpr h]

/-- Decoding a freshly encoded token whose expiry has lapsed fails with
the expiry error, even though the signature is valid. -/
lemma decode_encode_of_expired (secret : String) (now : Nat) (c : Claims)
    (h : c.exp ≤ now) :
    jwt_decodeRaw secret now (jwt_encode c secret) = .error .expiredSignature := by
  simp [jwt_decodeRaw, jwt_encode, h]

/-- `jwt_decodeOpt` depends on the current time only through the expiry
comparison of the decoded claims. -/
lemma jwt_decodeOpt_time_congr (secret : Option String) (now1 now2 : Nat)
    (tok : TokenStr)
    (h : ∀ c s, tok = .signed c s → ((c.exp ≤ now1) ↔ (c.exp ≤ now2))) :
    jwt_decodeOpt secret now1 tok = jwt_decodeOpt secret now2 tok := by
  cases secret with
  | none => rfl
  | some s =>
    cases tok with
    | garbage r => rfl
    | signed c sg =>
      simp only [jwt_decodeOpt, jwt_decodeRaw]
      by_cases hs : sg ≠ sign s c
      · simp [hs]
      · simp only [hs, if_false, ite_not]
        by_cases he : c.exp ≤ now1
        · rw [if_pos he, if_pos ((h c sg rfl).mp he)]
        · rw [if_neg he, if_neg (fun hx => he ((h c sg rfl).mpr hx))]

/-! ## Claims -/

/-- C1 counterexample: an invocation whose event carries no `methodArn` and
a missing authorization header fails at the malformed-header step, and the
`except` branch's own `event['methodArn']` access raises a `KeyError` that
escapes the handler — no Deny decision is returned. -/
theorem C1_counterexample :
    Authorizer.lambda_handler (fun s => .garbage s)
      ⟨some "s3cret", some "/auth/time", fun _ => .ok "60"⟩ 0
      ⟨none, none⟩
      = .error (.exc "KeyError: methodArn") := rfl

/-- C1 (amended): for every invocation whose event contains `methodArn`,
failure of the `try` body at any step (malformed header, decode failure of
any kind, wrong token type, config unavailable) yields the structurally
well-formed decision `{principal: "user", effect: Deny, resource:
methodArn}`, and no exception escapes the handler. -/
theorem C1_fail_closed (strToTok : String → TokenStr) (cfg : AuthConfig)
    (now : Nat) (ev : AuthorizerEvent) (arn : String) (e : PyErr)
    (hm : ev.methodArn = some arn)
    (hf : authorizer_try strToTok cfg now ev = .error e) :
    Authorizer.lambda_handler strToTok cfg now ev
      = .ok (generate_policy "user" "Deny" arn) := by
  simp [Authorizer.lambda_handler, hf, hm]

/-- C1 witness: a concrete failing invocation (non-Bearer header) with
`methodArn` present returns the Deny decision. -/
theorem C1_witness :
    Authorizer.lambda_handler (fun s => .garbage s)
      ⟨some "s3cret", some "/auth/time", fun _ => .ok "60"⟩ 0
      ⟨some "Basic abc", some "arn:r"⟩
      = .ok (generate_policy "user" "Deny" "arn:r") :=
  C1_fail_closed (fun s => .garbage s)
    ⟨some "s3cret", some "/auth/time", fun _ => .ok "60"⟩ 0
    ⟨some "Basic abc", some "arn:r"⟩ "arn:r"
    (.exc "Format is Authorization: Bearer [token]") rfl rfl

/-- C2: for every non-empty subject, `generate_tokens` yields an access
token decoding to `token_type = access`, `subject = s`,
`issuer = "lambda-api"`, `expires_at - issued_at` = 1 hour, and a refresh
token decoding to `token_type = refresh`, `expires_at - issued_at` = 7
days, the two claim sets sharing `subject` and `issued_at`. -/
theorem C2_issue_pair_claims (sec : String) (now : Nat) (s : String)
    (_hs : s ≠ "") :
    ∃ atok rtok ca cr,
      generate_tokens (some sec) now s
        = .ok { access_token := atok, refresh_token := rtok } ∧
      jwt_decodeRaw sec now atok = .ok ca ∧
      jwt_decodeRaw sec now rtok = .ok cr ∧
      ca.type = "access" ∧ ca.sub = s ∧ ca.iss = "lambda-api" ∧
      ca.exp - ca.iat = 3600 ∧
      cr.type = "refresh" ∧ cr.exp - cr.iat = 604800 ∧
      cr.sub = ca.sub ∧ cr.iat = ca.iat := by
  refine ⟨_, _,
    ⟨s, now, now + 3600, "lambda-api", "access"⟩,
    ⟨s, now, now + 604800, "lambda-api", "refresh"⟩,
    rfl, ?_, ?_, rfl, rfl, rfl,
    (by show now + 3600 - now = 3600; omega),
    rfl,
    (by show now + 604800 - now = 604800; omega),
    rfl, rfl⟩
  · exact decode_encode_of_lt sec now _ (by simp)
  · exact decode_encode_of_lt sec now _ (by simp)

/-- C2 witness: the token pair for subject `"alice"` at time 0. -/
theorem C2_witness :
    ∃ atok rtok ca cr,
      generate_tokens (some "k") 0 "alice"
        = .ok { access_token := atok, refresh_token := rtok } ∧
      jwt_decodeRaw "k" 0 atok = .ok ca ∧
      jwt_decodeRaw "k" 0 rtok = .ok cr ∧
      ca.type = "access" ∧ ca.sub = "alice" ∧ ca.iss = "lambda-api" ∧
      ca.exp - ca.iat = 3600 ∧
      cr.type = "refresh" ∧ cr.exp - cr.iat = 604800 ∧
      cr.sub = ca.sub ∧ cr.iat = ca.iat :=
  C2_issue_pair_claims "k" 0 "alice" (by decide)

/-- C3: round-trip — decoding an encoded claim set with the same secret,
while the token is unexpired, returns the original claim set. -/
theorem C3_decode_encode_roundtrip (c : Claims) (secret : String) (now : Nat)
    (h : now < c.exp) :
    jwt_decodeRaw secret now (jwt_encode c secret) = .ok c :=
  decode_encode_of_lt secret now c h

/-- C3 witness: a concrete round-trip at time 5 on a token expiring at 10. -/
theorem C3_witness :
    jwt_decodeRaw "k" 5 (jwt_encode ⟨"u", 0, 10, "lambda-api", "access"⟩ "k")
      = .ok ⟨"u", 0, 10, "lambda-api", "access"⟩ :=
  C3_decode_encode_roundtrip ⟨"u", 0, 10, "lambda-api", "access"⟩ "k" 5 (by decide)

/-- C4: for every valid, unexpired, signature-correct token with
`token_type = access` and subject `s`, presented as `Bearer <token>`, the
authorizer returns the IAM-style policy with `principalId = s`,
`Effect = Allow`, `Resource` = the requested `methodArn`,
`Action = "execute-api:Invoke"` and `Version = "2012-10-17"`. -/
theorem C4_valid_access_allow (strToTok : String → TokenStr)
    (cfg : AuthConfig) (now : Nat) (ev : AuthorizerEvent) (c : Claims)
    (sec hdr path tt arn : String)
    (h1 : ev.authorizationToken = some hdr)
    (h2 : pyStartsWith hdr "Bearer " = true)
    (h3 : strToTok ((pySplit hdr).getD 1 "") = jwt_encode c sec)
    (h4 : cfg.authTokenSecret = some sec)
    (h5 : cfg.ssmTokenTimePath = some path)
    (h6 : cfg.ssmLookup path = .ok tt)
    (h7 : c.type = "access")
    (h8 : now < c.exp)
    (h9 : ev.methodArn = some arn) :
    Authorizer.lambda_handler strToTok cfg now ev
      = .ok { principalId := c.sub,
              policyDocument :=
                { version := "2012-10-17",
                  statement := [{ action := "execute-api:Invoke",
                                  effect := "Allow", resource := arn }] } } := by
  have h3' : strToTok ((pySplit hdr)[1]?.getD "") = jwt_encode c sec := by
    rw [← List.getD_eq_getElem?_getD]; exact h3
  simp [Authorizer.lambda_handler, authorizer_try, jwt_decodeOpt,
    h1, h2, h3', h4, h5, h6, h7, h9, decode_encode_of_lt sec now c h8,
    generate_policy]

/-- C4 witness: a concrete valid access token presented as
`Bearer goodtok` is allowed with the token's subject as principal. -/
theorem C4_witness :
    Authorizer.lambda_handler
      (fun s => if s = "goodtok"
        then jwt_encode ⟨"alice", 0, 100, "lambda-api", "access"⟩ "s3cret"
        else .garbage s)
      ⟨some "s3cret", some "/auth/time", fun _ => .ok "60"⟩ 0
      ⟨some "Bearer goodtok", some "arn:r"⟩
      = .ok { principalId := "alice",
              policyDocument :=
                { version := "2012-10-17",
                  statement := [{ action := "execute-api:Invoke",
                                  effect := "Allow", resource := "arn:r" }] } } :=
  C4_valid_access_allow
    (fun s => if s = "goodtok"
      then jwt_encode ⟨"alice", 0, 100, "lambda-api", "access"⟩ "s3cret"
      else .garbage s)
    ⟨some "s3cret", some "/auth/time", fun _ => .ok "60"⟩ 0
    ⟨some "Bearer goodtok", some "arn:r"⟩
    ⟨"alice", 0, 100, "lambda-api", "access"⟩
    "s3cret" "Bearer goodtok" "/auth/time" "60" "arn:r"
    rfl (by decide) (by decide) rfl rfl rfl rfl (by decide) rfl

/-- C5: `refresh_access_token` on a signature-valid, unexpired token whose
type is not `refresh` fails with the wrong-token-type `ValueError`; on a
valid `refresh`-typed token with subject `s` it returns exactly one new
token — an access token with `subject = s`, `token_type = access`,
`issued_at = now` and `expires_at = now + 1 hour` — and never a new
refresh token. -/
theorem C5_refresh_behavior (sec : String) (now : Nat) (c : Claims)
    (h : now < c.exp) :
    (c.type ≠ "refresh" →
      refresh_access_token (some sec) now (jwt_encode c sec)
        = .error (.valueError "Token tipo inválido")) ∧
    (c.type = "refresh" →
      refresh_access_token (some sec) now (jwt_encode c sec)
        = .ok (jwt_encode
            { sub := c.sub, iat := now, exp := now + 3600,
              iss := "lambda-api", type := "access" } sec)) := by
  constructor
  · intro ht
    simp [refresh_access_token, decode_encode_of_lt sec now c h, ht]
  · intro ht
    simp [refresh_access_token, decode_encode_of_lt sec now c h, ht]

/-- C5 witness: an access-typed token is rejected with the wrong-type
error, and a refresh-typed token yields exactly the new access token. -/
theorem C5_witness :
    refresh_access_token (some "k") 5
        (jwt_encode ⟨"u", 0, 10, "lambda-api", "access"⟩ "k")
      = .error (.valueError "Token tipo inválido") ∧
    refresh_access_token (some "k") 5
        (jwt_encode ⟨"u", 0, 10, "lambda-api", "refresh"⟩ "k")
      = .ok (jwt_encode ⟨"u", 5, 5 + 3600, "lambda-api", "access"⟩ "k") :=
  ⟨(C5_refresh_behavior "k" 5 ⟨"u", 0, 10, "lambda-api", "access"⟩
      (by decide)).1 (by decide),
   (C5_refresh_behavior "k" 5 ⟨"u", 0, 10, "lambda-api", "refresh"⟩
      (by decide)).2 rfl⟩

/-- C6 counterexample: a header with an extra space-separated segment after
a valid access-token credential (`"Bearer goodtok extra"`) is NOT treated
as failure — the handler takes the second segment as the token and returns
Allow, refuting the claim that every header not of exactly the two-segment
form is denied. -/
theorem C6_counterexample :
    Authorizer.lambda_handler
      (fun s => if s = "goodtok"
        then jwt_encode ⟨"alice", 0, 100, "lambda-api", "access"⟩ "s3cret"
        else .garbage s)
      ⟨some "s3cret", some "/auth/time", fun _ => .ok "60"⟩ 0
      ⟨some "Bearer goodtok extra", some "arn:r"⟩
      = .ok (generate_policy "alice" "Allow" "arn:r") := rfl

/-- C6 (amended): the authorizer only requires the header to start with
the literal prefix `"Bearer "`; every header not starting with that prefix
is treated as failure and the decision is Deny. Headers with extra
space-separated segments are not rejected: the second segment is used as
the candidate token. -/
theorem C6_bearer_prefix_required (strToTok : String → TokenStr)
    (cfg : AuthConfig) (now : Nat) (ev : AuthorizerEvent) (arn : String)
    (hm : ev.methodArn = some arn)
    (hb : pyStartsWith (ev.authorizationToken.getD "") "Bearer " = false) :
    Authorizer.lambda_handler strToTok cfg now ev
      = .ok (generate_policy "user" "Deny" arn) := by
  simp [Authorizer.lambda_handler, authorizer_try, hb, hm]

/-- C6 witness: `Authorize("Basic abc", resource)` is denied. -/
theorem C6_witness :
    Authorizer.lambda_handler (fun s => .garbage s)
      ⟨some "s3cret", some "/auth/time", fun _ => .ok "60"⟩ 0
      ⟨some "Basic abc", some "arn:q"⟩
      = .ok (generate_policy "user" "Deny" "arn:q") :=
  C6_bearer_prefix_required (fun s => .garbage s)
    ⟨some "s3cret", some "/auth/time", fun _ => .ok "60"⟩ 0
    ⟨some "Basic abc", some "arn:q"⟩ "arn:q" rfl (by decide)

/-- C7: a token whose expiry has lapsed fails decoding with the expiry
error even though its signature is valid; the authorizer therefore denies
it, and the refresh flow surfaces it as the 401-mapped
`'Refresh token expirado'` error. -/
theorem C7_expired_token (sec : String) (now : Nat) (c : Claims)
    (h : c.exp ≤ now) :
    jwt_decodeRaw sec now (jwt_encode c sec) = .error .expiredSignature ∧
    refresh_access_token (some sec) now (jwt_encode c sec)
      = .error (.valueError "Refresh token expirado") ∧
    (∀ (strToTok : String → TokenStr) (cfg : AuthConfig)
        (ev : AuthorizerEvent) (hdr path tt arn : String),
      ev.authorizationToken = some hdr →
      pyStartsWith hdr "Bearer " = true →
      strToTok ((pySplit hdr).getD 1 "") = jwt_encode c sec →
      cfg.authTokenSecret = some sec →
      cfg.ssmTokenTimePath = some path →
      cfg.ssmLookup path = .ok tt →
      ev.methodArn = some arn →
      Authorizer.lambda_handler strToTok cfg now ev
        = .ok (generate_policy "user" "Deny" arn)) ∧
    (∀ (env : TGEnv) (strToTok : String → TokenStr) (ev : TGEvent)
        (b : ReqBody) (rt tt : String),
      env.authTokenSecret = some sec →
      env.ssmLookup "/auth/token/time" = .ok tt →
      ev.body = .parsed b →
      b.grant_type = some "refresh_token" →
      b.refresh_token = some rt →
      rt ≠ "" →
      strToTok rt = jwt_encode c sec →
      TokenGenerator.lambda_handler env strToTok now ev
        = { statusCode := 401, body := .errMsg "Refresh token expirado" }) := by
  refine ⟨decode_encode_of_expired sec now c h, ?_, ?_, ?_⟩
  · simp [refresh_access_token, decode_encode_of_expired sec now c h]
  · intro strToTok cfg ev hdr path tt arn h1 h2 h3 h4 h5 h6 h7
    have h3' : strToTok ((pySplit hdr)[1]?.getD "") = jwt_encode c sec := by
      rw [← List.getD_eq_getElem?_getD]; exact h3
    simp [Authorizer.lambda_handler, authorizer_try, jwt_decodeOpt,
      h1, h2, h3', h4, h5, h6, h7, decode_encode_of_expired sec now c h]
  · intro env strToTok ev b rt tt h1 h2 h3 h4 h5 h6 h7
    simp [TokenGenerator.lambda_handler, tg_try, refresh_access_token,
      h1, h2, h3, h4, h5, h6, h7, decode_encode_of_expired sec now c h]

/-- C7 witness: a token expired at decode time 20 is rejected with the
expiry error by the codec, by the authorizer (Deny), and by the refresh
endpoint (401). -/
theorem C7_witness :
    jwt_decodeRaw "k" 20 (jwt_encode ⟨"u", 0, 10, "lambda-api", "refresh"⟩ "k")
      = .error .expiredSignature ∧
    refresh_access_token (some "k") 20
        (jwt_encode ⟨"u", 0, 10, "lambda-api", "refresh"⟩ "k")
      = .error (.valueError "Refresh token expirado") ∧
    Authorizer.lambda_handler
      (fun s => if s = "old"
        then jwt_encode ⟨"u", 0, 10, "lambda-api", "refresh"⟩ "k"
        else .garbage s)
      ⟨some "k", some "/auth/time", fun _ => .ok "60"⟩ 20
      ⟨some "Bearer old", some "arn:r"⟩
      = .ok (generate_policy "user" "Deny" "arn:r") ∧
    TokenGenerator.lambda_handler ⟨some "k", fun _ => .ok "60"⟩
      (fun s => if s = "old"
        then jwt_encode ⟨"u", 0, 10, "lambda-api", "refresh"⟩ "k"
        else .garbage s) 20
      ⟨.parsed ⟨some "refresh_token", none, some "old"⟩⟩
      = { statusCode := 401, body := .errMsg "Refresh token expirado" } :=
  have main := C7_expired_token "k" 20 ⟨"u", 0, 10, "lambda-api", "refresh"⟩
    (by decide)
  ⟨main.1, main.2.1,
   main.2.2.1
     (fun s => if s = "old"
       then jwt_encode ⟨"u", 0, 10, "lambda-api", "refresh"⟩ "k"
       else .garbage s)
     ⟨some "k", some "/auth/time", fun _ => .ok "60"⟩
     ⟨some "Bearer old", some "arn:r"⟩
     "Bearer old" "/auth/time" "60" "arn:r"
     rfl (by decide) (by decide) rfl rfl rfl rfl,
   main.2.2.2 ⟨some "k", fun _ => .ok "60"⟩
     (fun s => if s = "old"
       then jwt_encode ⟨"u", 0, 10, "lambda-api", "refresh"⟩ "k"
       else .garbage s)
     ⟨.parsed ⟨some "refresh_token", none, some "old"⟩⟩
     ⟨some "refresh_token", none, some "old"⟩
     "old" "60" rfl rfl rfl rfl rfl (by decide) (by decide)⟩

/-- C8: the issuance/refresh handler's status-code mapping — a `password`
grant with missing `user_id` returns 400; a `refresh_token` grant with
missing `refresh_token` returns 400; a refresh with an invalid
(unparseable, or signature-invalid under the configured secret), expired,
or wrong-type refresh token returns 401; any unexpected/internal error
returns 500; successful issuance returns 200 with `expires_in` 3600 and
`token_type` `"Bearer"`. -/
theorem C8_status_codes (env : TGEnv) (strToTok : String → TokenStr)
    (now : Nat) :
    (∀ (ev : TGEvent) (b : ReqBody) (tt : String),
      env.ssmLookup "/auth/token/time" = .ok tt →
      ev.body = .parsed b → b.grant_type = some "password" →
      b.user_id = none →
      TokenGenerator.lambda_handler env strToTok now ev
        = { statusCode := 400, body := .errMsg "user_id es requerido" }) ∧
    (∀ (ev : TGEvent) (b : ReqBody) (tt : String),
      env.ssmLookup "/auth/token/time" = .ok tt →
      ev.body = .parsed b → b.grant_type = some "refresh_token" →
      b.refresh_token = none →
      TokenGenerator.lambda_handler env strToTok now ev
        = { statusCode := 400, body := .errMsg "refresh_token es requerido" }) ∧
    (∀ (ev : TGEvent) (b : ReqBody) (tt rt raw : String) (sec : String),
      env.authTokenSecret = some sec →
      env.ssmLookup "/auth/token/time" = .ok tt →
      ev.body = .parsed b → b.grant_type = some "refresh_token" →
      b.refresh_token = some rt → rt ≠ "" →
      strToTok rt = .garbage raw →
      TokenGenerator.lambda_handler env strToTok now ev
        = { statusCode := 401, body := .errMsg "Refresh token inválido" }) ∧
    (∀ (ev : TGEvent) (b : ReqBody) (tt rt : String) (sec : String)
        (c : Claims) (sg : Sig),
      env.authTokenSecret = some sec →
      env.ssmLookup "/auth/token/time" = .ok tt →
      ev.body = .parsed b → b.grant_type = some "refresh_token" →
      b.refresh_token = some rt → rt ≠ "" →
      strToTok rt = .signed c sg → sg ≠ sign sec c →
      TokenGenerator.lambda_handler env strToTok now ev
        = { statusCode := 401, body := .errMsg "Refresh token inválido" }) ∧
    (∀ (ev : TGEvent) (b : ReqBody) (tt rt : String) (sec : String)
        (c : Claims),
      env.authTokenSecret = some sec →
      env.ssmLookup "/auth/token/time" = .ok tt →
      ev.body = .parsed b → b.grant_type = some "refresh_token" →
      b.refresh_token = some rt → rt ≠ "" →
      strToTok rt = jwt_encode c sec → c.exp ≤ now →
      TokenGenerator.lambda_handler env strToTok now ev
        = { statusCode := 401, body := .errMsg "Refresh token expirado" }) ∧
    (∀ (ev : TGEvent) (b : ReqBody) (tt rt : String) (sec : String)
        (c : Claims),
      env.authTokenSecret = some sec →
      env.ssmLookup "/auth/token/time" = .ok tt →
      ev.body = .parsed b → b.grant_type = some "refresh_token" →
      b.refresh_token = some rt → rt ≠ "" →
      strToTok rt = jwt_encode c sec → now < c.exp → c.type ≠ "refresh" →
      TokenGenerator.lambda_handler env strToTok now ev
        = { statusCode := 401, body := .errMsg "Token tipo inválido" }) ∧
    (∀ (ev : TGEvent) (e : PyErr),
      tg_try env strToTok now ev = .error e →
      TokenGenerator.lambda_handler env strToTok now ev
        = { statusCode := 500, body := .errMsg (pyErrStr e) }) ∧
    (∀ (ev : TGEvent) (b : ReqBody) (tt u : String) (sec : String),
      env.authTokenSecret = some sec →
      env.ssmLookup "/auth/token/time" = .ok tt →
      ev.body = .parsed b → b.grant_type = some "password" →
      b.user_id = some u → u ≠ "" →
      TokenGenerator.lambda_handler env strToTok now ev
        = { statusCode := 200,
            body := .issuedTokens
              (jwt_encode ⟨u, now, now + 3600, "lambda-api", "access"⟩ sec)
              (jwt_encode ⟨u, now, now + 604800, "lambda-api", "refresh"⟩ sec)
              3600 "Bearer" }) := by
  refine ⟨?_, ?_, ?_, ?_, ?_, ?_, ?_, ?_⟩
  · intro ev b tt h1 h2 h3 h4
    simp [TokenGenerator.lambda_handler, tg_try, h1, h2, h3, h4]
  · intro ev b tt h1 h2 h3 h4
    simp [TokenGenerator.lambda_handler, tg_try, h1, h2, h3, h4]
  · intro ev b tt rt raw sec hsec h1 h2 h3 h4 h5 h6
    simp [TokenGenerator.lambda_handler, tg_try, refresh_access_token,
      jwt_decodeRaw, hsec, h1, h2, h3, h4, h5, h6]
  · intro ev b tt rt sec c sg hsec h1 h2 h3 h4 h5 h6 h7
    simp [TokenGenerator.lambda_handler, tg_try, refresh_access_token,
      jwt_decodeRaw, hsec, h1, h2, h3, h4, h5, h6, h7]
  · intro ev b tt rt sec c hsec h1 h2 h3 h4 h5 h6 h7
    simp [TokenGenerator.lambda_handler, tg_try, refresh_access_token,
      hsec, h1, h2, h3, h4, h5, h6, decode_encode_of_expired sec now c h7]
  · intro ev b tt rt sec c hsec h1 h2 h3 h4 h5 h6 h7 h8
    simp [TokenGenerator.lambda_handler, tg_try, refresh_access_token,
      hsec, h1, h2, h3, h4, h5, h6, h8, decode_encode_of_lt sec now c h7]
  · intro ev e h1
    simp [TokenGenerator.lambda_handler, h1]
  · intro ev b tt u sec hsec h1 h2 h3 h4 h5
    simp [TokenGenerator.lambda_handler, tg_try, generate_tokens,
      hsec, h1, h2, h3, h4, h5]

/-- C8 witness: one concrete instance of each mapped case — 400 (missing
`user_id`), 400 (missing `refresh_token`), 401 (unparseable token),
401 (token signed under a different secret), 401 (expired),
401 (wrong type), 500 (SSM lookup failure), and 200 on success. -/
theorem C8_witness :
    TokenGenerator.lambda_handler ⟨some "k", fun _ => .ok "60"⟩
      (fun s => .garbage s) 0 ⟨.parsed ⟨some "password", none, none⟩⟩
      = { statusCode := 400, body := .errMsg "user_id es requerido" } ∧
    TokenGenerator.lambda_handler ⟨some "k", fun _ => .ok "60"⟩
      (fun s => .garbage s) 0 ⟨.parsed ⟨some "refresh_token", none, none⟩⟩
      = { statusCode := 400, body := .errMsg "refresh_token es requerido" } ∧
    TokenGenerator.lambda_handler ⟨some "k", fun _ => .ok "60"⟩
      (fun s => .garbage s) 0
      ⟨.parsed ⟨some "refresh_token", none, some "junk"⟩⟩
      = { statusCode := 401, body := .errMsg "Refresh token inválido" } ∧
    TokenGenerator.lambda_handler ⟨some "k", fun _ => .ok "60"⟩
      (fun s => if s = "badsig"
        then jwt_encode ⟨"u", 0, 99, "lambda-api", "refresh"⟩ "wrong"
        else .garbage s) 0
      ⟨.parsed ⟨some "refresh_token", none, some "badsig"⟩⟩
      = { statusCode := 401, body := .errMsg "Refresh token inválido" } ∧
    TokenGenerator.lambda_handler ⟨some "k", fun _ => .ok "60"⟩
      (fun s => if s = "old"
        then jwt_encode ⟨"u", 0, 10, "lambda-api", "refresh"⟩ "k"
        else .garbage s) 20
      ⟨.parsed ⟨some "refresh_token", none, some "old"⟩⟩
      = { statusCode := 401, body := .errMsg "Refresh token expirado" } ∧
    TokenGenerator.lambda_handler ⟨some "k", fun _ => .ok "60"⟩
      (fun s => if s = "acc"
        then jwt_encode ⟨"u", 0, 99, "lambda-api", "access"⟩ "k"
        else .garbage s) 5
      ⟨.parsed ⟨some "refresh_token", none, some "acc"⟩⟩
      = { statusCode := 401, body := .errMsg "Token tipo inválido" } ∧
    TokenGenerator.lambda_handler ⟨some "k", fun _ => .error "ssm down"⟩
      (fun s => .garbage s) 0 ⟨.parsed ⟨some "password", some "u", none⟩⟩
      = { statusCode := 500, body := .errMsg "ssm down" } ∧
    TokenGenerator.lambda_handler ⟨some "k", fun _ => .ok "60"⟩
      (fun s => .garbage s) 0 ⟨.parsed ⟨some "password", some "alice", none⟩⟩
      = { statusCode := 200,
          body := .issuedTokens
            (jwt_encode ⟨"alice", 0, 3600, "lambda-api", "access"⟩ "k")
            (jwt_encode ⟨"alice", 0, 604800, "lambda-api", "refresh"⟩ "k")
            3600 "Bearer" } :=
  ⟨(C8_status_codes ⟨some "k", fun _ => .ok "60"⟩ (fun s => .garbage s) 0).1
     ⟨.parsed ⟨some "password", none, none⟩⟩
     ⟨some "password", none, none⟩ "60" rfl rfl rfl rfl,
   (C8_status_codes ⟨some "k", fun _ => .ok "60"⟩ (fun s => .garbage s) 0).2.1
     ⟨.parsed ⟨some "refresh_token", none, none⟩⟩
     ⟨some "refresh_token", none, none⟩ "60" rfl rfl rfl rfl,
   (C8_status_codes ⟨some "k", fun _ => .ok "60"⟩
       (fun s => .garbage s) 0).2.2.1
     ⟨.parsed ⟨some "refresh_token", none, some "junk"⟩⟩
     ⟨some "refresh_token", none, some "junk"⟩ "60" "junk" "junk" "k"
     rfl rfl rfl rfl rfl (by decide) rfl,
   (C8_status_codes ⟨some "k", fun _ => .ok "60"⟩
       (fun s => if s = "badsig"
         then jwt_encode ⟨"u", 0, 99, "lambda-api", "refresh"⟩ "wrong"
         else .garbage s) 0).2.2.2.1
     ⟨.parsed ⟨some "refresh_token", none, some "badsig"⟩⟩
     ⟨some "refresh_token", none, some "badsig"⟩ "60" "badsig" "k"
     ⟨"u", 0, 99, "lambda-api", "refresh"⟩
     (sign "wrong" ⟨"u", 0, 99, "lambda-api", "refresh"⟩)
     rfl rfl rfl rfl rfl (by decide) (by decide) (by decide),
   (C8_status_codes ⟨some "k", fun _ => .ok "60"⟩
       (fun s => if s = "old"
         then jwt_encode ⟨"u", 0, 10, "lambda-api", "refresh"⟩ "k"
         else .garbage s) 20).2.2.2.2.1
     ⟨.parsed ⟨some "refresh_token", none, some "old"⟩⟩
     ⟨some "refresh_token", none, some "old"⟩ "60" "old" "k"
     ⟨"u", 0, 10, "lambda-api", "refresh"⟩
     rfl rfl rfl rfl rfl (by decide) (by decide) (by decide),
   (C8_status_codes ⟨some "k", fun _ => .ok "60"⟩
       (fun s => if s = "acc"
         then jwt_encode ⟨"u", 0, 99, "lambda-api", "access"⟩ "k"
         else .garbage s) 5).2.2.2.2.2.1
     ⟨.parsed ⟨some "refresh_token", none, some "acc"⟩⟩
     ⟨some "refresh_token", none, some "acc"⟩ "60" "acc" "k"
     ⟨"u", 0, 99, "lambda-api", "access"⟩
     rfl rfl rfl rfl rfl (by decide) (by decide) (by decide) (by decide),
   (C8_status_codes ⟨some "k", fun _ => .error "ssm down"⟩
       (fun s => .garbage s) 0).2.2.2.2.2.2.1
     ⟨.parsed ⟨some "password", some "u", none⟩⟩ (.exc "ssm down") rfl,
   (C8_status_codes ⟨some "k", fun _ => .ok "60"⟩
       (fun s => .garbage s) 0).2.2.2.2.2.2.2
     ⟨.parsed ⟨some "password", some "alice", none⟩⟩
     ⟨some "password", some "alice", none⟩ "60" "alice" "k"
     rfl rfl rfl rfl rfl (by decide)⟩

/-- C9: the authorizer is deterministic and idempotent — two invocations
on the same header, resource, secret and configuration, made at any two
times at which every claim set the presented credential can decode to is
still within its validity window, return the identical decision. -/
theorem C9_idempotent (strToTok : String → TokenStr) (cfg : AuthConfig)
    (ev : AuthorizerEvent) (now1 now2 : Nat)
    (h : ∀ c s,
      strToTok ((pySplit (ev.authorizationToken.getD "")).getD 1 "")
        = TokenStr.signed c s →
      now1 < c.exp ∧ now2 < c.exp) :
    Authorizer.lambda_handler strToTok cfg now1 ev
      = Authorizer.lambda_handler strToTok cfg now2 ev := by
  have hdec :
      jwt_decodeOpt cfg.authTokenSecret now1
        (strToTok ((pySplit (ev.authorizationToken.getD "")).getD 1 ""))
      = jwt_decodeOpt cfg.authTokenSecret now2
        (strToTok ((pySplit (ev.authorizationToken.getD "")).getD 1 "")) := by
    apply jwt_decodeOpt_time_congr
    intro c s hc
    have := h c s hc
    constructor
    · intro hle; exact absurd hle (Nat.not_le.mpr this.1)
    · intro hle; exact absurd hle (Nat.not_le.mpr this.2)
  simp only [Authorizer.lambda_handler, authorizer_try, hdec]

/-- C9 witness: a valid access token presented at times 3 and 7, both
within its validity window, yields the identical Allow decision. -/
theorem C9_witness :
    Authorizer.lambda_handler
      (fun s => if s = "tok"
        then jwt_encode ⟨"bob", 0, 100, "lambda-api", "access"⟩ "k"
        else .garbage s)
      ⟨some "k", some "/auth/time", fun _ => .ok "60"⟩ 3
      ⟨some "Bearer tok", some "arn:r"⟩
      = Authorizer.lambda_handler
          (fun s => if s = "tok"
            then jwt_encode ⟨"bob", 0, 100, "lambda-api", "access"⟩ "k"
            else .garbage s)
          ⟨some "k", some "/auth/time", fun _ => .ok "60"⟩ 7
          ⟨some "Bearer tok", some "arn:r"⟩ :=
  C9_idempotent
    (fun s => if s = "tok"
      then jwt_encode ⟨"bob", 0, 100, "lambda-api", "access"⟩ "k"
      else .garbage s)
    ⟨some "k", some "/auth/time", fun _ => .ok "60"⟩
    ⟨some "Bearer tok", some "arn:r"⟩ 3 7
    (by
      intro c s hc
      have hc' : TokenStr.signed ⟨"bob", 0, 100, "lambda-api", "access"⟩
          (sign "k" ⟨"bob", 0, 100, "lambda-api", "access"⟩)
          = TokenStr.signed c s := hc
      injection hc' with h1 h2
      rw [← h1]
      exact ⟨by decide, by decide⟩)

/-- C10: the token-lifetime parameter fetched from the Secret/Config
Provider is never used in any computation — two configurations whose
lookups both succeed (with any two values) give the authorizer identical
decisions and the issuance/refresh handler identical responses; only
failure of the lookup itself changes the outcome, to Deny (authorizer)
or 500 (issuance/refresh handler). -/
theorem C10_token_time_unused :
    (∀ (strToTok : String → TokenStr) (now : Nat) (ev : AuthorizerEvent)
        (cfg1 cfg2 : AuthConfig) (path v1 v2 : String),
      cfg1.authTokenSecret = cfg2.authTokenSecret →
      cfg1.ssmTokenTimePath = some path →
      cfg2.ssmTokenTimePath = some path →
      cfg1.ssmLookup path = .ok v1 →
      cfg2.ssmLookup path = .ok v2 →
      Authorizer.lambda_handler strToTok cfg1 now ev
        = Authorizer.lambda_handler strToTok cfg2 now ev) ∧
    (∀ (strToTok : String → TokenStr) (now : Nat) (ev : TGEvent)
        (env1 env2 : TGEnv) (v1 v2 : String),
      env1.authTokenSecret = env2.authTokenSecret →
      env1.ssmLookup "/auth/token/time" = .ok v1 →
      env2.ssmLookup "/auth/token/time" = .ok v2 →
      TokenGenerator.lambda_handler env1 strToTok now ev
        = TokenGenerator.lambda_handler env2 strToTok now ev) ∧
    (∀ (strToTok : String → TokenStr) (now : Nat) (ev : AuthorizerEvent)
        (cfg : AuthConfig) (path m arn : String),
      cfg.ssmTokenTimePath = some path →
      cfg.ssmLookup path = .error m →
      ev.methodArn = some arn →
      Authorizer.lambda_handler strToTok cfg now ev
        = .ok (generate_policy "user" "Deny" arn)) ∧
    (∀ (strToTok : String → TokenStr) (now : Nat) (ev : TGEvent)
        (env : TGEnv) (m : String),
      env.ssmLookup "/auth/token/time" = .error m →
      TokenGenerator.lambda_handler env strToTok now ev
        = { statusCode := 500, body := .errMsg m }) := by
  refine ⟨?_, ?_, ?_, ?_⟩
  · intro strToTok now ev cfg1 cfg2 path v1 v2 hsec hp1 hp2 hl1 hl2
    simp only [Authorizer.lambda_handler, authorizer_try,
      hsec, hp1, hp2, hl1, hl2]
  · intro strToTok now ev env1 env2 v1 v2 hsec hl1 hl2
    simp only [TokenGenerator.lambda_handler, tg_try, hsec, hl1, hl2]
  · intro strToTok now ev cfg path m arn hp hl hm
    by_cases hb : pyStartsWith (ev.authorizationToken.getD "") "Bearer " = true
    · simp [Authorizer.lambda_handler, authorizer_try, hb, hp, hl, hm]
    · simp [Authorizer.lambda_handler, authorizer_try,
        Bool.not_eq_true _ ▸ hb, hm]
  · intro strToTok now ev env m hl
    simp [TokenGenerator.lambda_handler, tg_try, pyErrStr, hl]

/-- C10 witness: two lookups returning the distinct values `"60"` and
`"9999"` yield identical authorizer decisions and identical issuance
responses; a failing lookup yields Deny and 500 respectively. -/
theorem C10_witness :
    Authorizer.lambda_handler (fun s => .garbage s)
      ⟨some "k", some "/auth/time", fun _ => .ok "60"⟩ 0
      ⟨some "Bearer x", some "arn:r"⟩
      = Authorizer.lambda_handler (fun s => .garbage s)
          ⟨some "k", some "/auth/time", fun _ => .ok "9999"⟩ 0
          ⟨some "Bearer x", some "arn:r"⟩ ∧
    TokenGenerator.lambda_handler ⟨some "k", fun _ => .ok "60"⟩
      (fun s => .garbage s) 0 ⟨.parsed ⟨some "password", some "u", none⟩⟩
      = TokenGenerator.lambda_handler ⟨some "k", fun _ => .ok "9999"⟩
          (fun s => .garbage s) 0 ⟨.parsed ⟨some "password", some "u", none⟩⟩ ∧
    Authorizer.lambda_handler (fun s => .garbage s)
      ⟨some "k", some "/auth/time", fun _ => .error "ssm down"⟩ 0
      ⟨some "Bearer x", some "arn:r"⟩
      = .ok (generate_policy "user" "Deny" "arn:r") ∧
    TokenGenerator.lambda_handler ⟨some "k", fun _ => .error "ssm down"⟩
      (fun s => .garbage s) 0 ⟨.parsed ⟨some "password", some "u", none⟩⟩
      = { statusCode := 500, body := .errMsg "ssm down" } :=
  ⟨C10_token_time_unused.1 (fun s => .garbage s) 0
     ⟨some "Bearer x", some "arn:r"⟩
     ⟨some "k", some "/auth/time", fun _ => .ok "60"⟩
     ⟨some "k", some "/auth/time", fun _ => .ok "9999"⟩
     "/auth/time" "60" "9999" rfl rfl rfl rfl rfl,
   C10_token_time_unused.2.1 (fun s => .garbage s) 0
     ⟨.parsed ⟨some "password", some "u", none⟩⟩
     ⟨some "k", fun _ => .ok "60"⟩ ⟨some "k", fun _ => .ok "9999"⟩
     "60" "9999" rfl rfl rfl,
   C10_token_time_unused.2.2.1 (fun s => .garbage s) 0
     ⟨some "Bearer x", some "arn:r"⟩
     ⟨some "k", some "/auth/time", fun _ => .error "ssm down"⟩
     "/auth/time" "ssm down" "arn:r" rfl rfl rfl,
   C10_token_time_unused.2.2.2 (fun s => .garbage s) 0
     ⟨.parsed ⟨some "password", some "u", none⟩⟩
     ⟨some "k", fun _ => .error "ssm down"⟩ "ssm down" rfl⟩
